import Mathlib

/-!
Verification development for the pod-status classifier and the pod-discovery
polling loops of `pkg/devspace/kubectl/util.go`.

The Kubernetes API objects are embedded shallowly: only the fields that
`GetPodStatus`, `GetRunningPodsWithImage` and `GetNewestRunningPod` read are
modelled.  Durations are modelled in whole seconds (the polling interval of the
source is one second); the Kubernetes API client is modelled by a trace
`lists : Nat → List Pod` giving the result of the List call of each loop
iteration (List errors, which the source merely propagates, are not modelled).
-/

set_option maxHeartbeats 1000000

namespace DevSpace

/-- Waiting state of a container (k8s `ContainerStateWaiting`): only the
reason is read by the code. -/
structure ContainerStateWaiting where
  reason : String
  deriving DecidableEq

/-- Terminated state of a container (k8s `ContainerStateTerminated`): the code
reads the exit code, the signal and the reason. -/
structure ContainerStateTerminated where
  exitCode : Int
  signal : Int
  reason : String
  deriving DecidableEq

/-- A container state (k8s `ContainerState`): at most one of the three
pointers is normally set; the embedding keeps all three options, as the Go
struct does.  The running state carries no field read by the code, so it is
`Option Unit`. -/
structure ContainerState where
  waiting : Option ContainerStateWaiting
  running : Option Unit
  terminated : Option ContainerStateTerminated
  deriving DecidableEq

/-- Observed status of one container (k8s `ContainerStatus`): the code reads
`Ready` and `State`. -/
structure ContainerStatus where
  ready : Bool
  state : ContainerState
  deriving DecidableEq

/-- A declared container (k8s `Container`): name and image. -/
structure Container where
  name : String
  image : String
  deriving DecidableEq

/-- The pod spec fields read by the code. -/
structure PodSpec where
  initContainers : List Container
  containers : List Container
  deriving DecidableEq

/-- The pod status fields read by the code. -/
structure PodStatus where
  phase : String
  reason : String
  initContainerStatuses : List ContainerStatus
  containerStatuses : List ContainerStatus
  deriving DecidableEq

/-- A pod snapshot (k8s `Pod`): identity, creation/deletion timestamps (in
seconds), spec and status. -/
structure Pod where
  name : String
  namespaceName : String
  creationTimestamp : Nat
  deletionTimestamp : Option Nat
  spec : PodSpec
  status : PodStatus
  deriving DecidableEq

/-- `node.NodeUnreachablePodReason` from k8s. -/
def nodeUnreachablePodReason : String := "NodeLost"

/-- The init-container scan of `GetPodStatus` (util.go lines 288-314): walk the
init container statuses in declaration order; a status terminated with exit
code 0 is skipped; the first other status yields the `Init:`-prefixed reason
(and the Go flag `initializing = true`, here encoded as `some`).  `none` means
the scan fell through: the pod is past initialization. -/
def initScan (specInitCount : Nat) : Nat → List ContainerStatus → Option String
  | _, [] => none
  | i, c :: rest =>
    match c.state.terminated with
    | some t =>
      if t.exitCode = 0 then initScan specInitCount (i + 1) rest
      else if t.reason = "" then
        if t.signal ≠ 0 then some ("Init:Signal:" ++ toString t.signal)
        else some ("Init:ExitCode:" ++ toString t.exitCode)
      else some ("Init:" ++ t.reason)
    | none =>
      match c.state.waiting with
      | some w =>
        if w.reason ≠ "" ∧ w.reason ≠ "PodInitializing" then some ("Init:" ++ w.reason)
        else some ("Init:" ++ toString i ++ "/" ++ toString specInitCount)
      | none => some ("Init:" ++ toString i ++ "/" ++ toString specInitCount)

/-- The terminated/running cases of one step of the main-container loop of
`GetPodStatus` (util.go lines 323-333), reached when the container has no
non-empty waiting reason.  `acc` is the pair (reason, hasRunning). -/
def mainStepTerm (acc : String × Bool) (c : ContainerStatus) : String × Bool :=
  match c.state.terminated with
  | some t =>
    if t.reason ≠ "" then (t.reason, acc.2)
    else if t.signal ≠ 0 then ("Signal:" ++ toString t.signal, acc.2)
    else ("ExitCode:" ++ toString t.exitCode, acc.2)
  | none =>
    if c.ready = true ∧ c.state.running.isSome then (acc.1, true) else acc

/-- One step of the main-container loop of `GetPodStatus` (util.go lines
318-334): a non-empty waiting reason overwrites the reason; otherwise the
terminated/running cases apply. -/
def mainStep (acc : String × Bool) (c : ContainerStatus) : String × Bool :=
  match c.state.waiting with
  | some w => if w.reason ≠ "" then (w.reason, acc.2) else mainStepTerm acc c
  | none => mainStepTerm acc c

/-- `GetPodStatus` (util.go lines 279-349): start from the pod-level reason
(or phase), scan the init containers, then — when past initialization — walk
the main container statuses from the last to the first, each matching
container overwriting the reason; apply the Completed-with-running override,
then the deletion override. -/
def GetPodStatus (pod : Pod) : String :=
  let base := if pod.status.reason ≠ "" then pod.status.reason else pod.status.phase
  let derived :=
    match initScan pod.spec.initContainers.length 0 pod.status.initContainerStatuses with
    | some r => r
    | none =>
      let res := pod.status.containerStatuses.reverse.foldl mainStep (base, false)
      if res.1 = "Completed" ∧ res.2 = true then "Running" else res.1
  if pod.deletionTimestamp.isSome then
    if pod.status.reason = nodeUnreachablePodReason then "Unknown" else "Terminating"
  else derived

/-- The `CriticalStatus` map of util.go lines 39-48. -/
def CriticalStatus (s : String) : Bool :=
  s = "Error" || s = "Unknown" || s = "ImagePullBackOff" || s = "CrashLoopBackOff" ||
  s = "RunContainerError" || s = "ErrImagePull" || s = "CreateContainerConfigError" ||
  s = "InvalidImageName"

/-- The inline critical-status chain of `GetNewestRunningPod` (util.go line
262); extensionally the same set as `CriticalStatus`, written separately as in
the source. -/
def newestCritical (s : String) : Bool :=
  s = "Error" || s = "Unknown" || s = "ImagePullBackOff" || s = "CrashLoopBackOff" ||
  s = "RunContainerError" || s = "ErrImagePull" || s = "CreateContainerConfigError" ||
  s = "InvalidImageName"

/-- The nested container/image loops of both discovery functions: does some
declared container of the pod carry one of the accepted image names? -/
def podHasImage (imageNames : List String) (p : Pod) : Bool :=
  p.spec.containers.any (fun c => imageNames.any (fun n => n = c.image))

/-- Outcome of the `PodLoop` of `GetRunningPodsWithImage` (util.go lines
175-198): either a critical abort with the pod name and status, or the
collected pods together with the `wait` flag. -/
inductive PodLoopOutcome where
  | crit (podName status : String)
  | res (pods : List Pod) (wait : Bool)
  deriving DecidableEq

/-- The `PodLoop` of `GetRunningPodsWithImage` (util.go lines 175-198): for
each pod, the first declared container whose image is accepted decides by the
pod status: critical aborts with the pod name and status, Completed skips the
pod, any other non-Running status sets `wait` and stops, Running collects the
pod. -/
def podLoop (imageNames : List String) : List Pod → PodLoopOutcome
  | [] => .res [] false
  | p :: rest =>
    if podHasImage imageNames p then
      let s := GetPodStatus p
      if CriticalStatus s then .crit p.name s
      else if s = "Completed" then podLoop imageNames rest
      else if s ≠ "Running" then .res [] true
      else
        match podLoop imageNames rest with
        | .crit n st => .crit n st
        | .res pods w => .res (p :: pods) w
    else podLoop imageNames rest

/-- Result of `GetRunningPodsWithImage`: the collected pods, a critical-status
error, or the timeout error carrying the image names and the namespace of the
message at util.go line 212. -/
inductive RPResult where
  | pods (ps : List Pod)
  | critical (podName status : String)
  | timeout (imageNames : List String) (namespaceName : String)
  deriving DecidableEq

/-- The timeout message of util.go line 212. -/
def timeoutMessage (imageNames : List String) (namespaceName : String) : String :=
  "Waiting for pods with image names \x27" ++ String.intercalate "," imageNames ++
    "\x27 in namespace " ++ namespaceName ++ " timed out"

/-- The evaluation step of one iteration of `GetRunningPodsWithImage` (util.go
lines 171-205): on a non-empty list, run the `PodLoop`; a critical outcome or a
successful collection (`wait == false` and either some pod collected or the
minimum wait exhausted) ends the loop with `some` result, anything else keeps
polling. -/
def rpEarly (imageNames : List String) (minWait : Int) (items : List Pod) :
    Option RPResult :=
  if items = [] then none
  else
    match podLoop imageNames items with
    | .crit n s => some (.critical n s)
    | .res pods w =>
      if w = false ∧ (pods ≠ [] ∨ minWait ≤ 0) then some (.pods pods) else none

/-- The polling loop of `GetRunningPodsWithImage` (util.go lines 161-213).
`lists k` is the pod list returned by the List call of iteration `k`;
`minWait` and `maxWaiting` are in seconds (initially 60 and the budget given by the caller); both decrease by 2 per iteration (one 1-second sleep before and one
after the List call).  The second component counts the List calls performed.
The loop runs while `maxWaiting ≥ 0`, checked at iteration entry. -/
def GetRunningPodsWithImage (lists : Nat → List Pod) (imageNames : List String)
    (namespaceName : String) (k : Nat) (minWait maxWaiting : Int) : RPResult × Nat :=
  if h : maxWaiting < 0 then (.timeout imageNames namespaceName, 0)
  else
    match rpEarly imageNames minWait (lists k) with
    | some r => (r, 1)
    | none =>
      let r := GetRunningPodsWithImage lists imageNames namespaceName (k + 1)
        (minWait - 2) (maxWaiting - 2)
      (r.1, r.2 + 1)
termination_by (maxWaiting + 2).toNat
decreasing_by simp at h; omega

/-- One fold step of the newest-pod selection of `GetNewestRunningPod`
(util.go lines 237-256): is the current pod strictly newer than the selected
one (or is none selected yet)? -/
def newerThan (p : Pod) (sel : Option Pod) : Bool :=
  match sel with
  | none => true
  | some q => decide (q.creationTimestamp < p.creationTimestamp)

/-- One fold step of the newest-pod selection (util.go lines 240-255): a pod
that is newer than the current selection replaces it, unless a non-empty image
selector is given and no container of the pod carries an accepted image. -/
def selectStep (imageSelector : List String) (sel : Option Pod) (p : Pod) : Option Pod :=
  if newerThan p sel then
    if imageSelector ≠ [] then
      if podHasImage imageSelector p then some p else sel
    else some p
  else sel

/-- The newest-pod selection of `GetNewestRunningPod` (util.go lines 235-256):
fold over the listed pods in order, starting from no selection. -/
def selectNewest (imageSelector : List String) (pods : List Pod) : Option Pod :=
  pods.foldl (selectStep imageSelector) none

/-- Result of `GetNewestRunningPod`: the found pod, the critical-status error
(util.go line 263), the one-minute no-pod-found error (line 266) or the
budget-exhaustion error (line 274), the last two carrying the label selector
and namespace of their messages. -/
inductive NewestResult where
  | found (pod : Pod)
  | critical (status : String)
  | noMatch (labelSelector namespaceName : String)
  | timeout (labelSelector namespaceName : String)
  deriving DecidableEq

/-- Wall-clock seconds elapsed since loop start when iteration `k` evaluates
`time.Since(now)` (util.go line 265): one 1-second sleep at the head of the
current iteration plus two 1-second sleeps in each completed iteration. -/
def elapsedSeconds (k : Nat) : Nat := 2 * k + 1

/-- The polling loop of `GetNewestRunningPod` (util.go lines 221-274), a
do-while loop: run the body, then continue while the decremented budget is
positive.  `lists k` is the pod list returned by the List call of iteration
`k` (the source guards the body with `podList.Size() > 0 && len(podList.Items)
> 0`, i.e. a non-empty list); `maxWaiting` is in seconds and decreases by 2
per iteration. -/
def GetNewestRunningPod (lists : Nat → List Pod) (imageSelector : List String)
    (labelSelector namespaceName : String) (k : Nat) (maxWaiting : Int) : NewestResult :=
  let items := lists k
  let next : NewestResult :=
    if _h : maxWaiting - 2 > 0 then
      GetNewestRunningPod lists imageSelector labelSelector namespaceName (k + 1)
        (maxWaiting - 2)
    else .timeout labelSelector namespaceName
  if items = [] then next
  else
    match selectNewest imageSelector items with
    | some p =>
      let s := GetPodStatus p
      if s = "Running" then .found p
      else if newestCritical s then .critical s
      else next
    | none =>
      if 60 < elapsedSeconds k then .noMatch labelSelector namespaceName else next
termination_by maxWaiting.toNat
decreasing_by omega

/-! ### Characterization of the main-container loop -/

/-- The reason a container in the main-container loop would write in its
terminated/running cases: `none` when it writes nothing. -/
def termReason (c : ContainerStatus) : Option String :=
  match c.state.terminated with
  | some t =>
    some (if t.reason ≠ "" then t.reason
          else if t.signal ≠ 0 then "Signal:" ++ toString t.signal
          else "ExitCode:" ++ toString t.exitCode)
  | none => none

/-- The reason one step of the main-container loop writes for a container:
`none` when the container writes nothing (then only `hasRunning` may change). -/
def containerReason (c : ContainerStatus) : Option String :=
  match c.state.waiting with
  | some w => if w.reason ≠ "" then some w.reason else termReason c
  | none => termReason c

/-- Does the container set the `hasRunning` flag: it writes no reason, is
ready, and has a running state. -/
def readyRunningNoReason (c : ContainerStatus) : Bool :=
  (containerReason c).isNone && c.ready && c.state.running.isSome

theorem mainStep_fst (acc : String × Bool) (c : ContainerStatus) :
    (mainStep acc c).1 = (containerReason c).getD acc.1 := by
  obtain ⟨rdy, w, run, term⟩ := c
  cases w <;> cases term <;> cases rdy <;> cases run <;>
    simp only [mainStep, mainStepTerm, containerReason, termReason] <;>
    (try split) <;> (try split) <;> (try split) <;> simp_all

theorem mainStep_snd (acc : String × Bool) (c : ContainerStatus) :
    (mainStep acc c).2 = (acc.2 || readyRunningNoReason c) := by
  obtain ⟨rdy, w, run, term⟩ := c
  cases w <;> cases term <;> cases rdy <;> cases run <;>
    simp only [mainStep, mainStepTerm, readyRunningNoReason, containerReason, termReason] <;>
    (try split) <;> (try split) <;> (try split) <;> simp_all

theorem foldl_mainStep_fst_none (l : List ContainerStatus) :
    ∀ acc : String × Bool, (∀ c ∈ l, containerReason c = none) →
      (l.foldl mainStep acc).1 = acc.1 := by
  induction l with
  | nil => intro acc _; rfl
  | cons c t ih =>
    intro acc h
    rw [List.foldl_cons, ih (mainStep acc c) (fun x hx => h x (List.mem_cons_of_mem c hx)),
      mainStep_fst, h c (List.mem_cons_self c t)]
    rfl

theorem foldl_mainStep_snd (l : List ContainerStatus) :
    ∀ acc : String × Bool,
      (l.foldl mainStep acc).2 = (acc.2 || l.any readyRunningNoReason) := by
  induction l with
  | nil => intro acc; simp
  | cons c t ih =>
    intro acc
    rw [List.foldl_cons, ih (mainStep acc c), mainStep_snd]
    simp [Bool.or_assoc]

/-- `GetPodStatus` on a pod past initialization with no deletion timestamp:
the main-container fold, then the Completed-with-running override. -/
theorem getPodStatus_main (pod : Pod)
    (hinit : initScan pod.spec.initContainers.length 0 pod.status.initContainerStatuses = none)
    (hdel : pod.deletionTimestamp = none) :
    GetPodStatus pod =
      if (pod.status.containerStatuses.reverse.foldl mainStep
            ((if pod.status.reason ≠ "" then pod.status.reason else pod.status.phase),
              false)).1 = "Completed"
         ∧ (pod.status.containerStatuses.reverse.foldl mainStep
            ((if pod.status.reason ≠ "" then pod.status.reason else pod.status.phase),
              false)).2 = true
      then "Running"
      else (pod.status.containerStatuses.reverse.foldl mainStep
            ((if pod.status.reason ≠ "" then pod.status.reason else pod.status.phase),
              false)).1 := by
  unfold GetPodStatus
  rw [hinit, hdel]
  rfl

/-! ### Unfolding and induction lemmas for the polling loops -/

theorem newest_unfold (lists : Nat → List Pod) (sel : List String) (l ns : String)
    (k : Nat) (B : Int) :
    GetNewestRunningPod lists sel l ns k B =
      if lists k = [] then
        (if B - 2 > 0 then GetNewestRunningPod lists sel l ns (k + 1) (B - 2)
         else .timeout l ns)
      else
        match selectNewest sel (lists k) with
        | some p =>
          if GetPodStatus p = "Running" then .found p
          else if newestCritical (GetPodStatus p) then .critical (GetPodStatus p)
          else (if B - 2 > 0 then GetNewestRunningPod lists sel l ns (k + 1) (B - 2)
                else .timeout l ns)
        | none =>
          if 60 < elapsedSeconds k then .noMatch l ns
          else (if B - 2 > 0 then GetNewestRunningPod lists sel l ns (k + 1) (B - 2)
                else .timeout l ns) := by
  rw [GetNewestRunningPod]
  simp only [dite_eq_ite]

/-- Shared helper: a trace of all-empty List results drives the newest-pod
loop to its budget-exhaustion error, whatever the budget. -/
theorem newest_all_empty (lists : Nat → List Pod) (sel : List String) (l ns : String)
    (hl : ∀ j, lists j = []) :
    ∀ (n : Nat) (B : Int) (k : Nat), B.toNat ≤ n →
      GetNewestRunningPod lists sel l ns k B = .timeout l ns := by
  intro n
  induction n with
  | zero =>
    intro B k hB
    rw [newest_unfold, hl k]
    have h2 : ¬ B - 2 > 0 := by omega
    simp [h2]
  | succ n ih =>
    intro B k hB
    rw [newest_unfold, hl k]
    by_cases h2 : B - 2 > 0
    · simpa [h2] using ih (B - 2) (k + 1) (by omega)
    · simp [h2]

/-- Shared helper: the noMatch result can only arise from an iteration whose
List call returned a non-empty list in which no pod was selected (every pod
failed the image filter). -/
theorem newest_noMatch_inv (lists : Nat → List Pod) (sel : List String) (l ns a b : String) :
    ∀ (n : Nat) (B : Int) (k : Nat), B.toNat ≤ n →
      GetNewestRunningPod lists sel l ns k B = .noMatch a b →
      ∃ j, lists j ≠ [] ∧ selectNewest sel (lists j) = none := by
  intro n
  induction n with
  | zero =>
    intro B k hB hres
    rw [newest_unfold] at hres
    have h2 : ¬ B - 2 > 0 := by omega
    by_cases hemp : lists k = []
    · simp [hemp, h2] at hres
    · rcases hsel : selectNewest sel (lists k) with _ | p
      · simp only [hemp, if_neg, hsel] at hres
        exact ⟨k, hemp, hsel⟩
      · rw [if_neg hemp] at hres
        simp only [hsel] at hres
        by_cases hr : GetPodStatus p = "Running"
        · simp [hr] at hres
        · rw [if_neg hr] at hres
          by_cases hc : newestCritical (GetPodStatus p) = true
          · simp [hc] at hres
          · rw [if_neg hc, if_neg h2] at hres
            exact absurd hres (by simp)
  | succ n ih =>
    intro B k hB hres
    rw [newest_unfold] at hres
    by_cases h2 : B - 2 > 0
    · by_cases hemp : lists k = []
      · rw [if_pos hemp, if_pos h2] at hres
        exact ih (B - 2) (k + 1) (by omega) hres
      · rcases hsel : selectNewest sel (lists k) with _ | p
        · exact ⟨k, hemp, hsel⟩
        · rw [if_neg hemp] at hres
          simp only [hsel] at hres
          by_cases hr : GetPodStatus p = "Running"
          · simp [hr] at hres
          · rw [if_neg hr] at hres
            by_cases hc : newestCritical (GetPodStatus p) = true
            · simp [hc] at hres
            · rw [if_neg hc, if_pos h2] at hres
              exact ih (B - 2) (k + 1) (by omega) hres
    · by_cases hemp : lists k = []
      · simp [hemp, h2] at hres
      · rcases hsel : selectNewest sel (lists k) with _ | p
        · exact ⟨k, hemp, hsel⟩
        · rw [if_neg hemp] at hres
          simp only [hsel] at hres
          by_cases hr : GetPodStatus p = "Running"
          · simp [hr] at hres
          · rw [if_neg hr] at hres
            by_cases hc : newestCritical (GetPodStatus p) = true
            · simp [hc] at hres
            · rw [if_neg hc, if_neg h2] at hres
              exact absurd hres (by simp)

/-- Shared helper: advancing the newest-pod loop over empty iterations. -/
theorem newest_skip_empty (lists : Nat → List Pod) (sel : List String) (l ns : String) :
    ∀ (d k : Nat) (B : Int), (∀ j, k ≤ j → j < k + d → lists j = []) →
      B > 2 * (d : Int) →
      GetNewestRunningPod lists sel l ns k B =
        GetNewestRunningPod lists sel l ns (k + d) (B - 2 * (d : Int)) := by
  intro d
  induction d with
  | zero => intro k B _ _; simp
  | succ d ih =>
    intro k B h hB
    rw [newest_unfold, if_pos (h k le_rfl (by omega))]
    rw [if_pos (by omega : B - 2 > 0)]
    rw [ih (k + 1) (B - 2) (fun j h1 h2 => h j (by omega) (by omega)) (by omega)]
    have e1 : k + 1 + d = k + (d + 1) := by omega
    have e2 : B - 2 - 2 * (d : Int) = B - 2 * ((d : Nat) + 1 : Nat) := by push_cast; ring
    rw [e1, e2]

theorem rp_unfold (lists : Nat → List Pod) (imgs : List String) (ns : String)
    (k : Nat) (minWait B : Int) :
    GetRunningPodsWithImage lists imgs ns k minWait B =
      if B < 0 then (.timeout imgs ns, 0)
      else
        match rpEarly imgs minWait (lists k) with
        | some r => (r, 1)
        | none =>
          ((GetRunningPodsWithImage lists imgs ns (k + 1) (minWait - 2) (B - 2)).1,
           (GetRunningPodsWithImage lists imgs ns (k + 1) (minWait - 2) (B - 2)).2 + 1) := by
  rw [GetRunningPodsWithImage]
  simp only [dite_eq_ite]

/-- Shared helper: `rpEarly` never produces the timeout result. -/
theorem rpEarly_no_timeout (imgs : List String) (mw : Int) (items : List Pod)
    (i : List String) (m : String) : rpEarly imgs mw items ≠ some (.timeout i m) := by
  unfold rpEarly
  split
  · simp
  · rcases h : podLoop imgs items with ⟨n, s⟩ | ⟨pods, w⟩
    · simp
    · split <;> simp

/-- Shared helper: the List-call count of `GetRunningPodsWithImage` is at most
`⌊budget / 2⌋ + 1` for a non-negative budget. -/
theorem rp_count_le (lists : Nat → List Pod) (imgs : List String) (ns : String) :
    ∀ (n k : Nat) (mw B : Int), B.toNat ≤ n → 0 ≤ B →
      (GetRunningPodsWithImage lists imgs ns k mw B).2 ≤ B.toNat / 2 + 1 := by
  intro n
  induction n with
  | zero =>
    intro k mw B hn hB
    rw [rp_unfold, if_neg (by omega : ¬ B < 0)]
    rcases h : rpEarly imgs mw (lists k) with _ | r
    · simp only [h]
      have hneg : B - 2 < 0 := by omega
      rw [rp_unfold, if_pos hneg]
      simp
    · simp only [h]
      omega
  | succ n ih =>
    intro k mw B hn hB
    rw [rp_unfold, if_neg (by omega : ¬ B < 0)]
    rcases h : rpEarly imgs mw (lists k) with _ | r
    · simp only [h]
      by_cases hneg : B - 2 < 0
      · rw [rp_unfold, if_pos hneg]
        simp
      · have hrec := ih (k + 1) (mw - 2) (B - 2) (by omega) (by omega)
        show (GetRunningPodsWithImage lists imgs ns (k + 1) (mw - 2) (B - 2)).2 + 1 ≤
          B.toNat / 2 + 1
        omega
    · simp only [h]
      omega

/-- Shared helper: a timeout result of `GetRunningPodsWithImage` always
carries the image names and namespace the loop was called with. -/
theorem rp_timeout_inv (lists : Nat → List Pod) (imgs : List String) (ns : String) :
    ∀ (n k : Nat) (mw B : Int) (i : List String) (m : String), B.toNat ≤ n →
      (GetRunningPodsWithImage lists imgs ns k mw B).1 = .timeout i m →
      i = imgs ∧ m = ns := by
  intro n
  induction n with
  | zero =>
    intro k mw B i m hn hres
    rw [rp_unfold] at hres
    by_cases hneg : B < 0
    · rw [if_pos hneg] at hres
      simp at hres
      exact ⟨hres.1.symm, hres.2.symm⟩
    · rw [if_neg hneg] at hres
      rcases h : rpEarly imgs mw (lists k) with _ | r
      · simp only [h] at hres
        have hneg2 : B - 2 < 0 := by omega
        rw [rp_unfold, if_pos hneg2] at hres
        simp at hres
        exact ⟨hres.1.symm, hres.2.symm⟩
      · simp only [h] at hres
        replace hres : r = RPResult.timeout i m := hres
        exact absurd (h.trans (by rw [hres])) (rpEarly_no_timeout imgs mw (lists k) i m)
  | succ n ih =>
    intro k mw B i m hn hres
    rw [rp_unfold] at hres
    by_cases hneg : B < 0
    · rw [if_pos hneg] at hres
      simp at hres
      exact ⟨hres.1.symm, hres.2.symm⟩
    · rw [if_neg hneg] at hres
      rcases h : rpEarly imgs mw (lists k) with _ | r
      · simp only [h] at hres
        exact ih (k + 1) (mw - 2) (B - 2) i m (by omega) hres
      · simp only [h] at hres
        replace hres : r = RPResult.timeout i m := hres
        exact absurd (h.trans (by rw [hres])) (rpEarly_no_timeout imgs mw (lists k) i m)

/-- Shared helper: an init container status terminated with exit code 0 is
skipped by the init scan. -/
theorem initScan_cons_success (cnt i : Nat) (c : ContainerStatus)
    (rest : List ContainerStatus) (tc : ContainerStateTerminated)
    (htc : c.state.terminated = some tc) (hz : tc.exitCode = 0) :
    initScan cnt i (c :: rest) = initScan cnt (i + 1) rest := by
  obtain ⟨rdy, w, run, term⟩ := c
  cases term with
  | none => simp at htc
  | some tt =>
    simp at htc
    subst htc
    simp [initScan, hz]

/-- Shared helper: the init scan skips any leading block of successfully
terminated init containers. -/
theorem initScan_skip (cnt : Nat) :
    ∀ (pre : List ContainerStatus) (i : Nat) (rest : List ContainerStatus),
      (∀ c ∈ pre, ∃ tc, c.state.terminated = some tc ∧ tc.exitCode = 0) →
      initScan cnt i (pre ++ rest) = initScan cnt (i + pre.length) rest := by
  intro pre
  induction pre with
  | nil => intro i rest _; simp
  | cons c pc ih =>
    intro i rest h
    obtain ⟨tc, htc, hz⟩ := h c (List.mem_cons_self c pc)
    rw [List.cons_append, initScan_cons_success cnt i c (pc ++ rest) tc htc hz,
      ih (i + 1) rest (fun x hx => h x (List.mem_cons_of_mem c hx))]
    congr 1
    simp
    omega

/-- Shared helper: the init scan stops at a container terminated with a
non-zero exit code, no signal and no reason, and reports the exit code. -/
theorem initScan_fail_exit (cnt i : Nat) (c : ContainerStatus)
    (rest : List ContainerStatus) (t : ContainerStateTerminated)
    (htc : c.state.terminated = some t) (hexit : t.exitCode ≠ 0)
    (hsig : t.signal = 0) (hreason : t.reason = "") :
    initScan cnt i (c :: rest) = some ("Init:ExitCode:" ++ toString t.exitCode) := by
  obtain ⟨rdy, w, run, term⟩ := c
  cases term with
  | none => simp at htc
  | some tt =>
    simp at htc
    subst htc
    simp [initScan, hexit, hsig, hreason]

/-- Shared helper: with a non-empty image selector, any pod that
`selectNewest` returns passed the image filter. -/
theorem selectNewest_imageFilter (sel : List String) (hs : sel ≠ []) :
    ∀ (pods : List Pod) (acc : Option Pod) (p : Pod),
      (∀ q, acc = some q → podHasImage sel q = true) →
      pods.foldl (selectStep sel) acc = some p → podHasImage sel p = true := by
  intro pods
  induction pods with
  | nil => intro acc p hacc h; exact hacc p h
  | cons q t ih =>
    intro acc p hacc h
    rw [List.foldl_cons] at h
    refine ih (selectStep sel acc q) p ?_ h
    intro q' hq'
    unfold selectStep at hq'
    rw [if_pos hs] at hq'
    split at hq'
    · split at hq'
      · cases hq'
        assumption
      · exact hacc q' hq'
    · exact hacc q' hq'

/-- Shared helper: with all-empty List results, `GetRunningPodsWithImage`
returns its timeout error with the image names and namespace it was given. -/
theorem rp_all_empty (lists : Nat → List Pod) (imgs : List String) (ns : String)
    (hl : ∀ j, lists j = []) :
    ∀ (n k : Nat) (mw B : Int), B.toNat ≤ n →
      (GetRunningPodsWithImage lists imgs ns k mw B).1 = .timeout imgs ns := by
  intro n
  induction n with
  | zero =>
    intro k mw B hn
    rw [rp_unfold]
    by_cases hneg : B < 0
    · rw [if_pos hneg]
    · rw [if_neg hneg]
      have he : rpEarly imgs mw (lists k) = none := by rw [hl k]; rfl
      simp only [he]
      have hneg2 : B - 2 < 0 := by omega
      rw [rp_unfold, if_pos hneg2]
  | succ n ih =>
    intro k mw B hn
    rw [rp_unfold]
    by_cases hneg : B < 0
    · rw [if_pos hneg]
    · rw [if_neg hneg]
      have he : rpEarly imgs mw (lists k) = none := by rw [hl k]; rfl
      simp only [he]
      exact ih (k + 1) (mw - 2) (B - 2) (by omega)

/-! ### Claims -/

/-- Claim C10: the deletion override is applied last and takes priority over
every status derived from phase, init containers and main containers: with a
deletion timestamp set, `GetPodStatus` returns "Unknown" when the pod-level
status reason is the node-unreachable reason, and "Terminating" otherwise. -/
theorem claim_c10 (pod : Pod) (t : Nat) (hdel : pod.deletionTimestamp = some t) :
    GetPodStatus pod =
      if pod.status.reason = nodeUnreachablePodReason then "Unknown"
      else "Terminating" := by
  unfold GetPodStatus
  rw [hdel]
  rfl

def c10Pod : Pod :=
  ⟨"p", "ns", 5, some 9, ⟨[], []⟩, ⟨"Running", "NodeLost", [], []⟩⟩

/-- Witness for C10: a deleted pod whose pod-level reason is the
node-unreachable reason is classified "Unknown". -/
theorem claim_c10_witness : GetPodStatus c10Pod = "Unknown" := by
  rw [claim_c10 c10Pod 9 rfl]
  rfl

/-- Claim C9 (amended): for every pod snapshot with no deletion timestamp in
which the first init container status not terminated successfully is
Terminated with a non-zero exit code, zero signal and an empty reason string,
`GetPodStatus` returns "Init:ExitCode:&lt;code&gt;". -/
theorem claim_c9_amended (pod : Pod) (pre rest : List ContainerStatus)
    (ic : ContainerStatus) (t : ContainerStateTerminated)
    (hics : pod.status.initContainerStatuses = pre ++ ic :: rest)
    (hpre : ∀ c ∈ pre, ∃ tc, c.state.terminated = some tc ∧ tc.exitCode = 0)
    (hic : ic.state.terminated = some t)
    (hexit : t.exitCode ≠ 0) (hsig : t.signal = 0) (hreason : t.reason = "")
    (hdel : pod.deletionTimestamp = none) :
    GetPodStatus pod = "Init:ExitCode:" ++ toString t.exitCode := by
  have hscan : initScan pod.spec.initContainers.length 0 pod.status.initContainerStatuses
      = some ("Init:ExitCode:" ++ toString t.exitCode) := by
    rw [hics, initScan_skip pod.spec.initContainers.length pre 0 (ic :: rest) hpre]
    exact initScan_fail_exit pod.spec.initContainers.length (0 + pre.length) ic rest t
      hic hexit hsig hreason
  unfold GetPodStatus
  rw [hscan, hdel]
  rfl

def c9WitPod : Pod :=
  ⟨"p", "ns", 5, none, ⟨[⟨"i0", "x"⟩, ⟨"i1", "y"⟩], [⟨"a", "app:v1"⟩]⟩,
   ⟨"Pending", "",
    [⟨false, ⟨none, none, some ⟨0, 0, "Completed"⟩⟩⟩,
     ⟨false, ⟨none, none, some ⟨5, 0, ""⟩⟩⟩], []⟩⟩

/-- Witness for the amended C9: a pod whose first init container terminated
successfully and whose second terminated with exit code 5, no signal and no
reason is classified "Init:ExitCode:5". -/
theorem claim_c9_witness : GetPodStatus c9WitPod = "Init:ExitCode:5" := by
  have h := claim_c9_amended c9WitPod
    [⟨false, ⟨none, none, some ⟨0, 0, "Completed"⟩⟩⟩] []
    ⟨false, ⟨none, none, some ⟨5, 0, ""⟩⟩⟩ ⟨5, 0, ""⟩
    rfl (by intro c hc; simp at hc; subst hc; exact ⟨⟨0, 0, "Completed"⟩, rfl, rfl⟩)
    rfl (by decide) rfl rfl rfl
  exact h

def c9Pod : Pod :=
  ⟨"p", "ns", 5, none, ⟨[⟨"i0", "x"⟩, ⟨"i1", "y"⟩], [⟨"a", "app:v1"⟩]⟩,
   ⟨"Pending", "",
    [⟨false, ⟨some ⟨"ErrImagePull"⟩, none, none⟩⟩,
     ⟨false, ⟨none, none, some ⟨5, 0, ""⟩⟩⟩], []⟩⟩

/-- Counterexample to C9 as stated: `c9Pod` has an init container terminated
with non-zero exit code 5 and an empty reason, yet `GetPodStatus` reports the
earlier waiting init container, not "Init:ExitCode:5". -/
theorem claim_c9_counterexample :
    (∃ c ∈ c9Pod.status.initContainerStatuses,
       c.state.terminated = some ⟨5, 0, ""⟩) ∧
    c9Pod.deletionTimestamp = none ∧
    GetPodStatus c9Pod = "Init:ErrImagePull" ∧
    GetPodStatus c9Pod ≠ "Init:ExitCode:5" := by
  refine ⟨⟨⟨false, ⟨none, none, some ⟨5, 0, ""⟩⟩⟩, ?_, rfl⟩, rfl, rfl, by decide⟩
  decide

/-- Claim C8 (amended): for every pod snapshot with zero init container
statuses, exactly one main container status whose state is Running with
ready=true, no deletion timestamp, and whose pod-level base status (the
pod-level reason when non-empty, else the phase) is "Running" or "Completed",
`GetPodStatus` returns "Running"; in particular a "Completed" base is
overridden back to "Running". -/
theorem claim_c8_amended (pod : Pod) (c : ContainerStatus)
    (hinits : pod.status.initContainerStatuses = [])
    (hcs : pod.status.containerStatuses = [c])
    (hready : c.ready = true)
    (hrun : c.state.running.isSome = true)
    (hw : c.state.waiting = none)
    (ht : c.state.terminated = none)
    (hdel : pod.deletionTimestamp = none)
    (hbase : (if pod.status.reason ≠ "" then pod.status.reason else pod.status.phase)
        = "Running" ∨
      (if pod.status.reason ≠ "" then pod.status.reason else pod.status.phase)
        = "Completed") :
    GetPodStatus pod = "Running" := by
  have hscan : initScan pod.spec.initContainers.length 0 pod.status.initContainerStatuses
      = none := by rw [hinits]; rfl
  rw [getPodStatus_main pod hscan hdel, hcs]
  have hcr : containerReason c = none := by
    unfold containerReason termReason
    rw [hw, ht]
  have h1 : ∀ a : String × Bool, (mainStep a c).1 = a.1 := by
    intro a
    rw [mainStep_fst, hcr]
    rfl
  have h2 : ∀ a : String × Bool, (mainStep a c).2 = true := by
    intro a
    rw [mainStep_snd]
    simp [readyRunningNoReason, hcr, hready, hrun]
  simp only [List.reverse_cons, List.reverse_nil, List.nil_append, List.foldl_cons,
    List.foldl_nil, h1, h2]
  rcases hbase with hb | hb <;> rw [hb]
  · rw [if_neg]
    intro hcon
    exact absurd hcon.1 (by decide)
  · simp

def c8WitPod : Pod :=
  ⟨"p", "ns", 5, none, ⟨[], [⟨"a", "app:v1"⟩]⟩,
   ⟨"Completed", "", [], [⟨true, ⟨none, some (), none⟩⟩]⟩⟩

/-- Witness for the amended C8: a pod with base status "Completed" and one
ready, running container is classified "Running" (the override case). -/
theorem claim_c8_witness : GetPodStatus c8WitPod = "Running" := by
  exact claim_c8_amended c8WitPod ⟨true, ⟨none, some (), none⟩⟩
    rfl rfl rfl rfl rfl rfl rfl (Or.inr rfl)

def c8Pod : Pod :=
  ⟨"p", "ns", 5, none, ⟨[], [⟨"a", "app:v1"⟩]⟩,
   ⟨"Pending", "", [], [⟨true, ⟨none, some (), none⟩⟩]⟩⟩

/-- Counterexample to C8 as stated: `c8Pod` has zero init containers, one
ready Running main container and no deletion timestamp, yet `GetPodStatus`
returns the pod-level phase "Pending", not "Running". -/
theorem claim_c8_counterexample :
    c8Pod.status.initContainerStatuses = [] ∧
    c8Pod.status.containerStatuses =
      [⟨true, ⟨none, some (), none⟩⟩] ∧
    c8Pod.deletionTimestamp = none ∧
    GetPodStatus c8Pod = "Pending" ∧
    GetPodStatus c8Pod ≠ "Running" := by
  exact ⟨rfl, rfl, rfl, rfl, by decide⟩

def c1Pod : Pod :=
  ⟨"p", "ns", 5, none, ⟨[], [⟨"a", "i1"⟩, ⟨"b", "i2"⟩]⟩,
   ⟨"Pending", "", [],
    [⟨false, ⟨some ⟨"CrashLoopBackOff"⟩, none, none⟩⟩,
     ⟨false, ⟨some ⟨"ImagePullBackOff"⟩, none, none⟩⟩]⟩⟩

/-- Counterexample to C1 as stated: in `c1Pod` the last-declared main
container is Waiting with reason "ImagePullBackOff", the pod is past
initialization with no deletion timestamp, yet `GetPodStatus` returns
"CrashLoopBackOff" from the earlier container: the reverse loop never breaks, so the
first-declared container overwrites last. -/
theorem claim_c1_counterexample :
    (∃ pre lastC, c1Pod.status.containerStatuses = pre ++ [lastC] ∧
       lastC.state.waiting = some ⟨"ImagePullBackOff"⟩) ∧
    initScan c1Pod.spec.initContainers.length 0 c1Pod.status.initContainerStatuses
      = none ∧
    c1Pod.deletionTimestamp = none ∧
    GetPodStatus c1Pod = "CrashLoopBackOff" ∧
    GetPodStatus c1Pod ≠ "ImagePullBackOff" := by
  refine ⟨⟨[⟨false, ⟨some ⟨"CrashLoopBackOff"⟩, none, none⟩⟩],
    ⟨false, ⟨some ⟨"ImagePullBackOff"⟩, none, none⟩⟩, rfl, rfl⟩, rfl, rfl, rfl, by decide⟩

/-- Claim C1 (amended): for every pod snapshot past initialization with no
deletion timestamp whose last-declared main container is Waiting with reason
"ImagePullBackOff", and in which no earlier-declared main container exposes a
non-empty waiting reason, a non-empty terminated reason or a terminated
state, `GetPodStatus` returns "ImagePullBackOff". -/
theorem claim_c1_amended (pod : Pod) (pre : List ContainerStatus)
    (lastC : ContainerStatus) (w : ContainerStateWaiting)
    (hcs : pod.status.containerStatuses = pre ++ [lastC])
    (hw : lastC.state.waiting = some w)
    (hwr : w.reason = "ImagePullBackOff")
    (hpre : ∀ c ∈ pre, containerReason c = none)
    (hinit : initScan pod.spec.initContainers.length 0 pod.status.initContainerStatuses
      = none)
    (hdel : pod.deletionTimestamp = none) :
    GetPodStatus pod = "ImagePullBackOff" := by
  rw [getPodStatus_main pod hinit hdel, hcs, List.reverse_append]
  simp only [List.reverse_cons, List.reverse_nil, List.nil_append, List.singleton_append,
    List.foldl_cons]
  have hlast : containerReason lastC = some "ImagePullBackOff" := by
    have h0 : containerReason lastC
        = if w.reason ≠ "" then some w.reason else termReason lastC := by
      unfold containerReason
      rw [hw]
    rw [h0, hwr, if_pos (by decide : ("ImagePullBackOff" : String) ≠ "")]
  have hfst : ∀ a : String × Bool,
      (List.foldl mainStep (mainStep a lastC) pre.reverse).1 = "ImagePullBackOff" := by
    intro a
    rw [foldl_mainStep_fst_none pre.reverse (mainStep a lastC)
      (fun c hc => hpre c (List.mem_reverse.mp hc))]
    rw [mainStep_fst, hlast]
    rfl
  rw [hfst, if_neg]
  intro hcon
  exact absurd hcon.1 (by decide)

def c1WitPod : Pod :=
  ⟨"p", "ns", 5, none, ⟨[], [⟨"a", "i1"⟩, ⟨"b", "i2"⟩]⟩,
   ⟨"Pending", "", [],
    [⟨true, ⟨none, some (), none⟩⟩,
     ⟨false, ⟨some ⟨"ImagePullBackOff"⟩, none, none⟩⟩]⟩⟩

/-- Witness for the amended C1: the last container waits with
"ImagePullBackOff" and the earlier container is merely ready and running, so
the classifier reports "ImagePullBackOff". -/
theorem claim_c1_witness : GetPodStatus c1WitPod = "ImagePullBackOff" := by
  exact claim_c1_amended c1WitPod [⟨true, ⟨none, some (), none⟩⟩]
    ⟨false, ⟨some ⟨"ImagePullBackOff"⟩, none, none⟩⟩ ⟨"ImagePullBackOff"⟩
    rfl rfl rfl (by decide) rfl rfl

def c2Pod : Pod :=
  ⟨"p", "ns", 5, none, ⟨[], []⟩,
   ⟨"Running", "", [],
    [⟨false, ⟨none, none, some ⟨0, 0, "Completed"⟩⟩⟩,
     ⟨false, ⟨some ⟨"ImagePullBackOff"⟩, none, none⟩⟩,
     ⟨true, ⟨none, some (), none⟩⟩]⟩⟩

/-- Counterexample to C2 as stated: in `c2Pod` the first-declared matching
main container derives status "Completed" and a later container also matches,
yet `GetPodStatus` returns "Running" (the Completed-with-running override
fires after the loop), not "Completed" from the first-declared container. -/
theorem claim_c2_counterexample :
    initScan c2Pod.spec.initContainers.length 0 c2Pod.status.initContainerStatuses
      = none ∧
    c2Pod.deletionTimestamp = none ∧
    (c2Pod.status.containerStatuses.countP
      fun c => (containerReason c).isSome) = 2 ∧
    (c2Pod.status.containerStatuses.head?.map containerReason)
      = some (some "Completed") ∧
    GetPodStatus c2Pod = "Running" ∧
    GetPodStatus c2Pod ≠ "Completed" := by
  exact ⟨rfl, rfl, by decide, by decide, rfl, by decide⟩

/-- Claim C2 (amended): for every pod snapshot past initialization with no
deletion timestamp in which two or more main containers match (expose a
non-empty waiting reason, a non-empty terminated reason, or an empty-reason
terminated state), `GetPodStatus` returns the status `r` derived from the
first-declared matching container — except that when `r` is "Completed" and
some main container is ready and running with no reason of its own, "Running"
is returned instead. -/
theorem claim_c2_amended (pod : Pod) (pre suf : List ContainerStatus)
    (ci : ContainerStatus) (r : String)
    (hinit : initScan pod.spec.initContainers.length 0 pod.status.initContainerStatuses
      = none)
    (hdel : pod.deletionTimestamp = none)
    (hcs : pod.status.containerStatuses = pre ++ ci :: suf)
    (hpre : ∀ c ∈ pre, containerReason c = none)
    (hci : containerReason ci = some r)
    (htwo : ∃ c ∈ suf, (containerReason c).isSome = true) :
    GetPodStatus pod =
      if r = "Completed" ∧ pod.status.containerStatuses.any readyRunningNoReason = true
      then "Running" else r := by
  clear htwo
  rw [getPodStatus_main pod hinit hdel, hcs, List.reverse_append, List.reverse_cons]
  rw [List.foldl_append, List.foldl_append]
  simp only [List.foldl_cons, List.foldl_nil]
  have hfst : ∀ a : String × Bool,
      (List.foldl mainStep (mainStep a ci) pre.reverse).1 = r := by
    intro a
    rw [foldl_mainStep_fst_none pre.reverse (mainStep a ci)
      (fun c hc => hpre c (List.mem_reverse.mp hc))]
    rw [mainStep_fst, hci]
    rfl
  have hsnd : ∀ a : String × Bool,
      (List.foldl mainStep (mainStep a ci) pre.reverse).2
        = (a.2 || readyRunningNoReason ci || pre.any readyRunningNoReason) := by
    intro a
    rw [foldl_mainStep_snd pre.reverse (mainStep a ci), mainStep_snd, List.any_reverse]
  rw [hfst]
  congr 1
  rw [hsnd, foldl_mainStep_snd]
  simp [List.any_append, List.any_cons, List.any_reverse, Bool.or_comm, Bool.or_left_comm,
    Bool.or_assoc]

def c2WitPod : Pod :=
  ⟨"p", "ns", 5, none, ⟨[], []⟩,
   ⟨"Pending", "", [],
    [⟨false, ⟨some ⟨"CrashLoopBackOff"⟩, none, none⟩⟩,
     ⟨false, ⟨some ⟨"ImagePullBackOff"⟩, none, none⟩⟩]⟩⟩

/-- Witness for the amended C2: two matching containers; the classifier
reports "CrashLoopBackOff" from the first-declared container. -/
theorem claim_c2_witness : GetPodStatus c2WitPod = "CrashLoopBackOff" := by
  have h := claim_c2_amended c2WitPod []
    [⟨false, ⟨some ⟨"ImagePullBackOff"⟩, none, none⟩⟩]
    ⟨false, ⟨some ⟨"CrashLoopBackOff"⟩, none, none⟩⟩ "CrashLoopBackOff"
    rfl rfl rfl (by intro c hc; simp at hc) rfl
    ⟨⟨false, ⟨some ⟨"ImagePullBackOff"⟩, none, none⟩⟩, by decide, by decide⟩
  rw [h, if_neg]
  intro hcon
  exact absurd hcon.1 (by decide)

/-- Claim C6: given two pods with creation timestamps T1 &lt; T2 both matching
the selector (in either List order) and both passing the image filter, the
newer pod is selected and returned once its status is Running; and with a
non-empty image filter, a pod with no accepted container image is never
selected. -/
theorem claim_c6 (p1 p2 : Pod) (sel : List String) (lists : Nat → List Pod)
    (l ns : String) (B : Int)
    (ht : p1.creationTimestamp < p2.creationTimestamp)
    (h1 : sel = [] ∨ podHasImage sel p1 = true)
    (h2 : sel = [] ∨ podHasImage sel p2 = true)
    (hrun : GetPodStatus p2 = "Running")
    (hlist : lists 0 = [p1, p2] ∨ lists 0 = [p2, p1]) :
    GetNewestRunningPod lists sel l ns 0 B = .found p2 ∧
    (∀ pods p, sel ≠ [] → selectNewest sel pods = some p →
      podHasImage sel p = true) := by
  have e1 : selectStep sel none p1 = some p1 := by
    rcases h1 with h | h
    · simp [selectStep, newerThan, h]
    · by_cases hs : sel = [] <;> simp [selectStep, newerThan, h, hs]
  have e2 : selectStep sel (some p1) p2 = some p2 := by
    rcases h2 with h | h
    · simp [selectStep, newerThan, h, ht]
    · by_cases hs : sel = [] <;> simp [selectStep, newerThan, h, hs, ht]
  have e3 : selectStep sel none p2 = some p2 := by
    rcases h2 with h | h
    · simp [selectStep, newerThan, h]
    · by_cases hs : sel = [] <;> simp [selectStep, newerThan, h, hs]
  have e4 : selectStep sel (some p2) p1 = some p2 := by
    have hnot : ¬ p2.creationTimestamp < p1.creationTimestamp := by omega
    simp [selectStep, newerThan, hnot]
  have hsel : selectNewest sel (lists 0) = some p2 := by
    rcases hlist with h | h <;> rw [h] <;> unfold selectNewest <;>
      simp only [List.foldl_cons, List.foldl_nil]
    · rw [e1, e2]
    · rw [e3, e4]
  constructor
  · have hne : lists 0 ≠ [] := by rcases hlist with h | h <;> simp [h]
    rw [newest_unfold, if_neg hne]
    simp only [hsel]
    rw [if_pos hrun]
  · intro pods p hs hsp
    exact selectNewest_imageFilter sel hs pods none p (by intro q hq; cases hq) hsp

def c6PodOld : Pod :=
  ⟨"old", "ns", 5, none, ⟨[], [⟨"c", "app:v1"⟩]⟩,
   ⟨"Running", "", [], [⟨true, ⟨none, some (), none⟩⟩]⟩⟩

def c6PodNew : Pod :=
  ⟨"new", "ns", 10, none, ⟨[], [⟨"c", "app:v1"⟩]⟩,
   ⟨"Running", "", [], [⟨true, ⟨none, some (), none⟩⟩]⟩⟩

/-- Witness for C6: of two Running pods with timestamps 5 and 10 both carrying
image "app:v1", the pod with timestamp 10 is returned. -/
theorem claim_c6_witness :
    GetNewestRunningPod (fun _ => [c6PodOld, c6PodNew]) ["app:v1"] "l" "n" 0 100
      = .found c6PodNew := by
  exact (claim_c6 c6PodOld c6PodNew ["app:v1"] (fun _ => [c6PodOld, c6PodNew])
    "l" "n" 100 (by decide) (Or.inr (by decide)) (Or.inr (by decide)) rfl
    (Or.inl rfl)).1

/-- Claim C7: once a newest candidate is selected in an iteration, status
Running returns it, a status in the eight-element critical set fails with the
critical error in that same iteration with no further polling, and any other
status continues the loop (recursing on the decremented budget, or timing
out). -/
theorem claim_c7 (lists : Nat → List Pod) (sel : List String) (l ns : String)
    (k : Nat) (B : Int) (p : Pod)
    (hsel : selectNewest sel (lists k) = some p) :
    (GetPodStatus p = "Running" → GetNewestRunningPod lists sel l ns k B = .found p) ∧
    (newestCritical (GetPodStatus p) = true →
      GetNewestRunningPod lists sel l ns k B = .critical (GetPodStatus p)) ∧
    (GetPodStatus p ≠ "Running" → newestCritical (GetPodStatus p) = false →
      GetNewestRunningPod lists sel l ns k B =
        (if B - 2 > 0 then GetNewestRunningPod lists sel l ns (k + 1) (B - 2)
         else .timeout l ns)) := by
  have hne : lists k ≠ [] := by
    intro h
    rw [h] at hsel
    simp [selectNewest] at hsel
  refine ⟨?_, ?_, ?_⟩
  · intro hr
    rw [newest_unfold, if_neg hne]
    simp only [hsel]
    rw [if_pos hr]
  · intro hc
    have hr : GetPodStatus p ≠ "Running" := by
      intro h
      rw [h] at hc
      exact absurd hc (by decide)
    rw [newest_unfold, if_neg hne]
    simp only [hsel]
    rw [if_neg hr, if_pos hc]
  · intro hr hc
    rw [newest_unfold, if_neg hne]
    simp only [hsel]
    rw [if_neg hr, if_neg (by simp [hc])]

def c7Pod : Pod :=
  ⟨"crash", "ns", 9, none, ⟨[], [⟨"main", "app:v1"⟩]⟩,
   ⟨"Pending", "", [], [⟨false, ⟨some ⟨"CrashLoopBackOff"⟩, none, none⟩⟩]⟩⟩

/-- Witness for C7: a cluster whose only matching pod (image "app:v1") is in
CrashLoopBackOff yields the critical error in the first iteration. -/
theorem claim_c7_witness :
    GetNewestRunningPod (fun _ => [c7Pod]) ["app:v1"] "l" "n" 0 30
      = .critical "CrashLoopBackOff" := by
  exact (claim_c7 (fun _ => [c7Pod]) ["app:v1"] "l" "n" 0 30 c7Pod (by decide)).2.1 rfl

/-- Counterexample to C3 as stated: a selector matching zero pods polled for
70 seconds (budget 70s, every List call empty) ends in the budget-exhaustion
Timeout error, not the one-minute NoMatch error — the NoMatch branch sits
inside the non-empty-list guard. -/
theorem claim_c3_counterexample :
    GetNewestRunningPod (fun _ => []) [] "app=x" "ns" 0 70 = .timeout "app=x" "ns" ∧
    GetNewestRunningPod (fun _ => []) [] "app=x" "ns" 0 70 ≠ .noMatch "app=x" "ns" := by
  have h := newest_all_empty (fun _ => []) [] "app=x" "ns" (fun _ => rfl) 70 70 0
    (by decide)
  exact ⟨h, by rw [h]; simp⟩

/-- Claim C3 (amended): the one-minute NoMatch error is produced when, after
roughly one minute of wall-clock from loop start and within the wait budget,
a List call returns a non-empty pod list in which no pod passes the image
filter; a selector matching zero pods never reaches it and times out
instead. -/
theorem claim_c3_amended (lists : Nat → List Pod) (sel : List String) (l ns : String)
    (k : Nat) (B : Int)
    (hprev : ∀ j, j < k → lists j = [])
    (hk : lists k ≠ [])
    (hsel : selectNewest sel (lists k) = none)
    (htime : 60 < elapsedSeconds k)
    (hB : B > 2 * (k : Int)) :
    GetNewestRunningPod lists sel l ns 0 B = .noMatch l ns := by
  have hadv := newest_skip_empty lists sel l ns k 0 B
    (fun j hj1 hj2 => hprev j (by omega)) hB
  rw [Nat.zero_add] at hadv
  rw [hadv, newest_unfold, if_neg hk]
  simp only [hsel]
  rw [if_pos htime]

def c3Pod : Pod :=
  ⟨"p", "ns", 5, none, ⟨[], [⟨"c", "other:v1"⟩]⟩, ⟨"Pending", "", [], []⟩⟩

/-- Witness for the amended C3: iteration 30 (61 seconds elapsed) lists one
pod that fails the image filter, so the loop fails with NoMatch. -/
theorem claim_c3_witness :
    GetNewestRunningPod (fun j => if j = 30 then [c3Pod] else []) ["img"] "l" "n" 0 62
      = .noMatch "l" "n" := by
  exact claim_c3_amended (fun j => if j = 30 then [c3Pod] else []) ["img"] "l" "n" 30 62
    (by intro j hj; simp [show j ≠ 30 by omega]) (by decide) (by decide) (by decide)
    (by decide)

/-- Claim C4: the early NoMatch error of `GetNewestRunningPod` requires some
List call to have produced a non-empty pod list in which no pod passed the
image filter; when every List call returns an empty list that branch is
unreachable and the loop ends with the final timeout error. -/
theorem claim_c4 (lists : Nat → List Pod) (sel : List String) (l ns a b : String)
    (B : Int) :
    (GetNewestRunningPod lists sel l ns 0 B = .noMatch a b →
      ∃ j, lists j ≠ [] ∧ selectNewest sel (lists j) = none) ∧
    ((∀ j, lists j = []) → GetNewestRunningPod lists sel l ns 0 B = .timeout l ns) :=
  ⟨fun h => newest_noMatch_inv lists sel l ns a b B.toNat B 0 le_rfl h,
   fun h => newest_all_empty lists sel l ns h B.toNat B 0 le_rfl⟩

/-- Witness for C4: with all-empty List results the loop times out. -/
theorem claim_c4_witness :
    GetNewestRunningPod (fun _ => []) ["i"] "a" "b" 0 10 = .timeout "a" "b" :=
  (claim_c4 (fun _ => []) ["i"] "a" "b" "x" "y" 10).2 (fun _ => rfl)

/-- Claim C5: `GetRunningPodsWithImage` decrements the budget by twice the
one-second interval per iteration, so for a non-negative budget it performs at
most ⌊budget/2⌋ + 1 List calls; a timeout result always carries the image
names and namespace the loop was called with, and its message contains the
comma-joined image names and the namespace; with all-empty List results the
budget is exhausted and the timeout error is returned. -/
theorem claim_c5 (lists : Nat → List Pod) (imgs : List String) (ns : String)
    (B : Int) (hB : 0 ≤ B) :
    (GetRunningPodsWithImage lists imgs ns 0 60 B).2 ≤ B.toNat / 2 + 1 ∧
    (∀ i m, (GetRunningPodsWithImage lists imgs ns 0 60 B).1 = .timeout i m →
      i = imgs ∧ m = ns ∧
      (∃ s1 s2, (timeoutMessage i m).data
        = s1 ++ (String.intercalate "," imgs).data ++ s2) ∧
      (∃ s1 s2, (timeoutMessage i m).data = s1 ++ ns.data ++ s2)) ∧
    ((∀ j, lists j = []) →
      (GetRunningPodsWithImage lists imgs ns 0 60 B).1 = .timeout imgs ns) := by
  refine ⟨rp_count_le lists imgs ns B.toNat 0 60 B le_rfl hB, ?_, ?_⟩
  · intro i m h
    obtain ⟨hi, hm⟩ := rp_timeout_inv lists imgs ns B.toNat 0 60 B i m le_rfl h
    subst hi
    subst hm
    refine ⟨rfl, rfl, ?_, ?_⟩
    · exact ⟨"Waiting for pods with image names \x27".data,
        ("\x27 in namespace " ++ m ++ " timed out").data, by simp [timeoutMessage]⟩
    · exact ⟨("Waiting for pods with image names \x27" ++ String.intercalate "," i
        ++ "\x27 in namespace ").data, " timed out".data, by simp [timeoutMessage]⟩
  · intro h
    exact rp_all_empty lists imgs ns h B.toNat 0 60 B le_rfl

/-- Witness for C5: budget 3 seconds, all-empty List results: two iterations
(⌊3/2⌋+1) and the timeout error carrying the selector and namespace. -/
theorem claim_c5_witness :
    (GetRunningPodsWithImage (fun _ => []) ["app:v1"] "dev" 0 60 3).1
      = .timeout ["app:v1"] "dev" ∧
    (GetRunningPodsWithImage (fun _ => []) ["app:v1"] "dev" 0 60 3).2 ≤ 2 := by
  have h := claim_c5 (fun _ => []) ["app:v1"] "dev" 3 (by decide)
  exact ⟨h.2.2 (fun _ => rfl), h.1⟩

end DevSpace
